import Mathlib

/-!
Verification of the transaction-extraction and classification pipeline of the
finance-dashboard repository (`app.py` and `processor.py`).

Shallow embedding conventions:
* Python floats are modelled as exact rationals (`ℚ`); the arithmetic in the
  source (sums, `* 0.7`, `* 0.3`, `* 0.1`, `abs`) is treated as exact real
  arithmetic, as the specification describes it ("signed real number").
* Python `None`, numbers and strings occurring in record fields are the
  inductive `PyVal`.
* A record (`row.to_dict()` in pandas, or a decoded JSON object) is an ordered
  association list of field name and value; a field name is `Option String`
  (`Option.none` models a Python `None`/falsy non-string key).
* Fallible library calls (`float(...)`, decoding) are `Option`/`Except`.
-/

/-- A Python value stored in a record field: `None`, a finite number
(modelled exactly as a rational), or a string. -/
inductive PyVal where
  | none
  | num (q : ℚ)
  | str (s : String)
deriving DecidableEq

/-- An ordered record: field names (possibly `None`) to raw values, in the
original field order of the source row. -/
abbrev RawRecord := List (Option String × PyVal)

/-- Python truthiness of a record key (`if key:`): `None` and `""` are falsy. -/
def keyTruthy : Option String → Bool
  | Option.none => false
  | Option.some s => s ≠ ""

/-- Python `str(key)` applied to a record key. -/
def keyStr : Option String → String
  | Option.none => "None"
  | Option.some s => s

/-- Python `str(value)` applied to a field value.  Rendering of numbers is an
abstraction of Python float formatting; no claim depends on it. -/
def pyStr : PyVal → String
  | PyVal.none => "None"
  | PyVal.num q => toString q
  | PyVal.str s => s

/-- Python `s.lower()` on the ASCII range (`Char.toLower`); the data in the
pipeline is ASCII apart from currency symbols, which both functions leave
unchanged. -/
def pyLower (s : String) : String :=
  String.mk (s.toList.map Char.toLower)

/-- Python `s.endswith(suffix)`. -/
def strEndsWith (s suffix : String) : Bool :=
  suffix.toList.isSuffixOf s.toList

/-- Substring test on character lists (Python's `needle in hay`). -/
def listSubstr : List Char → List Char → Bool
  | n, [] => n.isEmpty
  | n, c :: t => n.isPrefixOf (c :: t) || listSubstr n t

/-- Python's `needle in hay` substring test on strings. -/
def isSubstr (needle hay : String) : Bool :=
  listSubstr needle.toList hay.toList

/-- Python whitespace characters recognised by `str.strip()` / `float()`. -/
def isPySpace (c : Char) : Bool :=
  c = ' ' || c = '\t' || c = '\n' || c = '\r' || c = '\x0b' || c = '\x0c'

/-- Python `s.strip()`: drop leading and trailing whitespace. -/
def pyStrip (s : String) : String :=
  String.mk (((s.toList.dropWhile isPySpace).reverse.dropWhile isPySpace).reverse)

/-- Worker for `removeSub`; the fuel is an upper bound on the scan steps (each
step consumes at least one character, so the list length suffices). -/
def removeSubFuel : Nat → List Char → List Char → List Char
  | 0, _, _ => []
  | fuel + 1, old, l =>
    match l with
    | [] => []
    | c :: t =>
      if old ≠ [] ∧ old.isPrefixOf (c :: t) then
        removeSubFuel fuel old ((c :: t).drop old.length)
      else
        c :: removeSubFuel fuel old t

/-- Python `s.replace(old, "")` on character lists (every occurrence of the
nonempty needle `old` removed, scanning left to right). -/
def removeSub (old l : List Char) : List Char :=
  removeSubFuel l.length old l

/-- Numeric value of a digit string. -/
def digitsValN (l : List Char) : ℕ :=
  l.foldl (fun a c => a * 10 + (c.toNat - 48)) 0

/-- Syntactic phase of Python's `float(s)`: surrounding whitespace, an optional
sign, digits with an optional decimal point, and an optional exponent.
Returns the parsed pieces (negative sign, integer digits, fraction digits,
exponent) or `Option.none` where Python raises `ValueError`. -/
def pyFloatParts? (s : String) : Option (Bool × List Char × List Char × ℤ) :=
  let l := (pyStrip s).toList
  let sl : Bool × List Char :=
    match l with
    | '+' :: t => (false, t)
    | '-' :: t => (true, t)
    | _ => (false, l)
  let ip := sl.2.takeWhile Char.isDigit
  let r1 := sl.2.dropWhile Char.isDigit
  let fpr : List Char × List Char :=
    match r1 with
    | '.' :: t => (t.takeWhile Char.isDigit, t.dropWhile Char.isDigit)
    | _ => ([], r1)
  let fp := fpr.1
  let r2 := fpr.2
  if ip = [] ∧ fp = [] then Option.none
  else
    match r2 with
    | [] => Option.some (sl.1, ip, fp, 0)
    | e :: t =>
      if e = 'e' ∨ e = 'E' then
        let se : ℤ × List Char :=
          match t with
          | '+' :: u => (1, u)
          | '-' :: u => (-1, u)
          | _ => (1, t)
        let ed := se.2.takeWhile Char.isDigit
        let rest := se.2.dropWhile Char.isDigit
        if ed = [] ∨ rest ≠ [] then Option.none
        else Option.some (sl.1, ip, fp, se.1 * (digitsValN ed : ℤ))
      else Option.none

/-- Numeric value of the parsed pieces of a float literal. -/
def ratOfParts (p : Bool × List Char × List Char × ℤ) : ℚ :=
  (if p.1 then -1 else 1) *
    ((digitsValN p.2.1 : ℚ) + (digitsValN p.2.2.1 : ℚ) / (10 : ℚ) ^ p.2.2.1.length) *
    (10 : ℚ) ^ p.2.2.2

/-- Model of Python's `float(s)` on finite decimal and scientific literals.
Returns `Option.none` where Python raises `ValueError`.  (Digit-group
underscores and the non-finite literals `inf`/`nan` are outside the model;
no call site in the claims produces them.) -/
def pyFloat? (s : String) : Option ℚ :=
  (pyFloatParts? s).map ratOfParts

/-- The string produced by the cleaning chain of `app.py parse_amount`:
`str(value).replace(',', '').replace('₹', '').replace('$', '').replace('€', '').strip()`. -/
def app_cleaned (s : String) : String :=
  pyStrip (String.mk (removeSub ['€'] (removeSub ['$'] (removeSub ['₹'] (removeSub [','] s.toList)))))

/-- `app.py parse_amount` (lines 55-65): `None` or `''` give 0; numbers are
cast directly; text is cleaned of commas and the currency symbols ₹, $, €,
stripped, and parsed; an empty cleaned string or a parse failure gives 0. -/
def parse_amount (value : PyVal) : ℚ :=
  match value with
  | PyVal.none => 0
  | PyVal.num q => q
  | PyVal.str s =>
    if s = "" then 0
    else
      let cleaned := app_cleaned s
      if cleaned = "" then 0 else (pyFloat? cleaned).getD 0

/-- The string produced by the cleaning chain of `processor.py parse_amount`
(line 152): `str(value).replace(',', '').replace('â‚¹', '').replace('$', '').strip()` —
note the mojibake three-character needle `'â‚¹'` instead of `'₹'`, and no `'€'`. -/
def proc_cleaned (s : String) : String :=
  pyStrip (String.mk (removeSub ['$'] (removeSub ['â', '‚', '¹'] (removeSub [','] s.toList))))

/-- `FinancialProcessor.parse_amount` (processor.py lines 145-155).
`pd.isna(value) or value is None` maps `None` to 0 (`pd.isna` is false on
numbers and strings); there is no `value == ''` test, but an empty string
cleans to `""` and yields 0 through the `if cleaned else 0` branch. -/
def FinancialProcessor.parse_amount (value : PyVal) : ℚ :=
  match value with
  | PyVal.none => 0
  | PyVal.num q => q
  | PyVal.str s =>
    let cleaned := proc_cleaned s
    if cleaned = "" then 0 else (pyFloat? cleaned).getD 0

/-- Evaluation helper: `parse_amount` on a string whose cleaned form parses
with a zero exponent. -/
theorem parse_amount_eval (s : String) (neg : Bool) (ip fp : List Char) (q : ℚ)
    (h : pyFloatParts? (app_cleaned s) = Option.some (neg, ip, fp, 0))
    (hq : (if neg then (-1 : ℚ) else 1) *
        ((digitsValN ip : ℚ) + (digitsValN fp : ℚ) / (10 : ℚ) ^ fp.length) = q) :
    parse_amount (PyVal.str s) = q := by
  have hz : pyFloatParts? "" = (Option.none : Option (Bool × List Char × List Char × ℤ)) := rfl
  have hc : app_cleaned s ≠ "" := by
    intro e
    rw [e, hz] at h
    exact Option.noConfusion h
  have hs : s ≠ "" := by
    intro e
    subst e
    exact hc rfl
  simp only [parse_amount, if_neg hs, if_neg hc, pyFloat?, h, Option.map_some', Option.getD_some]
  rw [← hq]
  simp [ratOfParts]

/-- Evaluation helper: `FinancialProcessor.parse_amount` on a string whose
cleaned form parses with a zero exponent. -/
theorem proc_parse_amount_eval (s : String) (neg : Bool) (ip fp : List Char) (q : ℚ)
    (h : pyFloatParts? (proc_cleaned s) = Option.some (neg, ip, fp, 0))
    (hq : (if neg then (-1 : ℚ) else 1) *
        ((digitsValN ip : ℚ) + (digitsValN fp : ℚ) / (10 : ℚ) ^ fp.length) = q) :
    FinancialProcessor.parse_amount (PyVal.str s) = q := by
  have hz : pyFloatParts? "" = (Option.none : Option (Bool × List Char × List Char × ℤ)) := rfl
  have hc : proc_cleaned s ≠ "" := by
    intro e
    rw [e, hz] at h
    exact Option.noConfusion h
  simp only [FinancialProcessor.parse_amount, if_neg hc, pyFloat?, h, Option.map_some',
    Option.getD_some]
  rw [← hq]
  simp [ratOfParts]

/-- Evaluation helper: `parse_amount` on a string whose cleaned form fails to
parse (Python `ValueError`, absorbed to 0). -/
theorem parse_amount_fail_eval (s : String)
    (h : pyFloatParts? (app_cleaned s) = Option.none) :
    parse_amount (PyVal.str s) = 0 := by
  by_cases hs : s = ""
  · subst hs; rfl
  · by_cases hc : app_cleaned s = ""
    · simp [parse_amount, if_neg hs, hc]
    · simp only [parse_amount, if_neg hs, if_neg hc, pyFloat?, h, Option.map_none',
        Option.getD_none]

/-- Evaluation helper: `FinancialProcessor.parse_amount` on a string whose
cleaned form fails to parse. -/
theorem proc_parse_amount_fail_eval (s : String)
    (h : pyFloatParts? (proc_cleaned s) = Option.none) :
    FinancialProcessor.parse_amount (PyVal.str s) = 0 := by
  by_cases hc : proc_cleaned s = ""
  · simp [FinancialProcessor.parse_amount, hc]
  · simp only [FinancialProcessor.parse_amount, if_neg hc, pyFloat?, h, Option.map_none',
      Option.getD_none]

/-- CHART_OF_ACCOUNTS (app.py lines 37-53), in declaration order
(Python dicts preserve insertion order). -/
def CHART_OF_ACCOUNTS : List (String × List (String × List String)) :=
  [("income",
     [("salary", ["salary", "payroll", "wages"]),
      ("business", ["freelance", "consulting", "client", "project"]),
      ("investment", ["dividend", "interest", "return", "yield"]),
      ("other_income", ["refund", "reimbursement", "gift"])]),
   ("expenses",
     [("housing", ["rent", "mortgage", "emi", "house", "apartment"]),
      ("utilities", ["electric", "water", "bill", "utility", "internet", "mobile"]),
      ("food", ["grocery", "restaurant", "food", "dining", "supermarket"]),
      ("transport", ["fuel", "petrol", "uber", "ola", "transport", "bus", "train"]),
      ("healthcare", ["medical", "hospital", "doctor", "pharmacy", "medicine"]),
      ("entertainment", ["movie", "netflix", "prime", "entertainment", "game"]),
      ("shopping", ["shopping", "mall", "amazon", "flipkart", "purchase"])])]

/-- `self.chart_of_accounts` (processor.py lines 11-27); identical content,
declared separately because processor.py carries its own copy. -/
def FinancialProcessor.chart_of_accounts : List (String × List (String × List String)) :=
  [("income",
     [("salary", ["salary", "payroll", "wages"]),
      ("business", ["freelance", "consulting", "client", "project"]),
      ("investment", ["dividend", "interest", "return", "yield"]),
      ("other_income", ["refund", "reimbursement", "gift"])]),
   ("expenses",
     [("housing", ["rent", "mortgage", "emi", "house", "apartment"]),
      ("utilities", ["electric", "water", "bill", "utility", "internet", "mobile"]),
      ("food", ["grocery", "restaurant", "food", "dining", "supermarket"]),
      ("transport", ["fuel", "petrol", "uber", "ola", "transport", "bus", "train"]),
      ("healthcare", ["medical", "hospital", "doctor", "pharmacy", "medicine"]),
      ("entertainment", ["movie", "netflix", "prime", "entertainment", "game"]),
      ("shopping", ["shopping", "mall", "amazon", "flipkart", "purchase"])])]

/-- Inner loop of `categorize_transaction`: scan one main category's
sub-categories in order; return the first `"{main}_{sub}"` whose any keyword
is a substring of the lowercased description. -/
def scanSubCats (mainCat descLower : String) : List (String × List String) → Option String
  | [] => Option.none
  | (subCat, keywords) :: t =>
    if keywords.any (fun kw => isSubstr kw descLower) then
      Option.some (mainCat ++ "_" ++ subCat)
    else
      scanSubCats mainCat descLower t

/-- Outer loop of `categorize_transaction`: scan main categories in
declaration order. -/
def scanChart (descLower : String) : List (String × List (String × List String)) → Option String
  | [] => Option.none
  | (mainCat, subCats) :: t =>
    match scanSubCats mainCat descLower subCats with
    | Option.some c => Option.some c
    | Option.none => scanChart descLower t

/-- `app.py categorize_transaction` (lines 67-74): lowercase the description,
scan the chart in declaration order, first keyword substring match wins,
otherwise `"uncategorized"`. -/
def categorize_transaction (description : String) : String :=
  (scanChart (pyLower description) CHART_OF_ACCOUNTS).getD "uncategorized"

/-- `FinancialProcessor.categorize_transaction` (processor.py lines 157-164):
same logic over the processor's own chart copy. -/
def FinancialProcessor.categorize_transaction (description : String) : String :=
  (scanChart (pyLower description) FinancialProcessor.chart_of_accounts).getD "uncategorized"

/-- The three amount-field keyword groups of `extract_transaction`. -/
def amountTerms : List String := ["amount", "amt", "value"]

/-- Debit-like field keywords. -/
def debitTerms : List String := ["debit", "withdrawal", "dr"]

/-- Credit-like field keywords. -/
def creditTerms : List String := ["credit", "deposit", "cr"]

/-- Description-like field keywords. -/
def descTerms : List String := ["description", "desc", "particulars", "narration", "details"]

/-- The amount-detection loop of `extract_transaction` (app.py lines 78-90,
processor.py lines 89-101), parameterised over the `parse_amount` in scope at
the call site.  Fields are scanned in order; a field with a truthy key and a
non-`None` value is classified by its lowercased key: generic amount terms
break with the signed parse, debit terms with minus the absolute value, credit
terms with plus the absolute value; otherwise the scan continues.  `amount`
stays 0 when no field matches. -/
def amount_scan_with (parse : PyVal → ℚ) : RawRecord → ℚ
  | [] => 0
  | (key, value) :: rest =>
    if keyTruthy key ∧ value ≠ PyVal.none then
      if amountTerms.any (fun t => isSubstr t (pyLower (keyStr key))) then
        parse value
      else if debitTerms.any (fun t => isSubstr t (pyLower (keyStr key))) then
        -(abs (parse value))
      else if creditTerms.any (fun t => isSubstr t (pyLower (keyStr key))) then
        abs (parse value)
      else
        amount_scan_with parse rest
    else
      amount_scan_with parse rest

/-- First field whose truthy key's lowercased form satisfies `pred`,
stringified (the `next(...)` generators for description and date in
`extract_transaction`; note they do not test the value for `None`). -/
def field_str_scan (pred : String → Bool) : RawRecord → Option String
  | [] => Option.none
  | (key, value) :: rest =>
    if keyTruthy key ∧ pred (pyLower (keyStr key)) then
      Option.some (pyStr value)
    else
      field_str_scan pred rest

/-- Key predicate of the description generator. -/
def descPred (keyLower : String) : Bool :=
  descTerms.any (fun t => isSubstr t keyLower)

/-- Key predicate of the date generator (`'date' in str(key).lower()`). -/
def datePred (keyLower : String) : Bool :=
  isSubstr "date" keyLower

/-- A canonical transaction as built by the extractors and the line parser. -/
structure Transaction where
  date : String
  description : String
  amount : ℚ
  category : String
  type : String
deriving DecidableEq

/-- Common body of the two `extract_transaction` copies, parameterised over
the parser, categorizer and description placeholder in scope at the call
site.  A resolved amount of exactly 0 rejects the record. -/
def extract_with (parse : PyVal → ℚ) (categorize : String → String) (placeholder : String)
    (row : RawRecord) : Option Transaction :=
  let amount := amount_scan_with parse row
  if amount = 0 then Option.none
  else
    let description := (field_str_scan descPred row).getD placeholder
    let date := (field_str_scan datePred row).getD ""
    Option.some
      { date := date, description := description, amount := amount,
        category := categorize description,
        type := if amount > 0 then "income" else "expense" }

/-- `app.py extract_transaction` (lines 76-102); placeholder
`"Unknown Transaction"`. -/
def extract_transaction (row : RawRecord) : Option Transaction :=
  extract_with parse_amount categorize_transaction "Unknown Transaction" row

/-- `FinancialProcessor.extract_transaction` (processor.py lines 87-116);
placeholder `"Unknown"`. -/
def FinancialProcessor.extract_transaction (row : RawRecord) : Option Transaction :=
  extract_with FinancialProcessor.parse_amount FinancialProcessor.categorize_transaction
    "Unknown" row

/-- Income-statement block of the generated reports. -/
structure IncomeStatement where
  total_income : ℚ
  total_expenses : ℚ
  net_income : ℚ
  breakdown : List (String × ℚ)
deriving DecidableEq

/-- Balance-sheet block (simplified ratio model). -/
structure BalanceSheet where
  total_assets : ℚ
  total_liabilities : ℚ
  total_equity : ℚ
deriving DecidableEq

/-- Cash-flow block. -/
structure CashFlow where
  operating_activities : ℚ
  investing_activities : ℚ
  financing_activities : ℚ
  net_cash_flow : ℚ
deriving DecidableEq

/-- The full report bundle returned by `generate_reports`. -/
structure Reports where
  transactions : List Transaction
  income_statement : IncomeStatement
  balance_sheet : BalanceSheet
  cash_flow : CashFlow
deriving DecidableEq

/-- Python `d[k] = d.get(k, 0) + v` on an insertion-ordered dict: an existing
key keeps its position, a new key is appended. -/
def dictAdd (k : String) (v : ℚ) : List (String × ℚ) → List (String × ℚ)
  | [] => [(k, v)]
  | (k', v') :: t => if k' = k then (k', v' + v) :: t else (k', v') :: dictAdd k v t

/-- Python `sum(d.values())`. -/
def sumValues (d : List (String × ℚ)) : ℚ :=
  (d.map Prod.snd).sum

/-- One iteration of the breakdown loop in `generate_reports`: a positive
amount accumulates into the income breakdown, otherwise the absolute value
accumulates into the expense breakdown. -/
def breakdownStep (acc : List (String × ℚ) × List (String × ℚ)) (t : Transaction) :
    List (String × ℚ) × List (String × ℚ) :=
  if t.amount > 0 then
    (dictAdd t.category t.amount acc.1, acc.2)
  else
    (acc.1, dictAdd t.category (abs t.amount) acc.2)

/-- Python `{**a, **b}` on insertion-ordered dicts with unique keys: keys of
`a` in order (values overridden by `b` where present), then keys of `b` not
in `a`. -/
def pyDictMerge (a b : List (String × ℚ)) : List (String × ℚ) :=
  a.map (fun kv => (b.lookup kv.1).elim kv (fun v => (kv.1, v))) ++
    b.filter (fun kv => (a.lookup kv.1).isNone)

/-- `generate_reports` (app.py lines 114-135 and processor.py lines 166-212;
the two bodies are line-for-line the same computation).  Python floats
`0.7`, `0.3`, `0.1` are the exact rationals `7/10`, `3/10`, `1/10`. -/
def generate_reports (transactions : List Transaction) : Reports :=
  let bds := transactions.foldl breakdownStep ([], [])
  let income_breakdown := bds.1
  let expense_breakdown := bds.2
  let total_income := sumValues income_breakdown
  let total_expenses := sumValues expense_breakdown
  let net_income := total_income - total_expenses
  let total_assets := total_income * (7 / 10)
  let total_liabilities := total_expenses * (3 / 10)
  let total_equity := total_assets - total_liabilities
  let operating_cash := net_income
  let investing_cash := total_income * (1 / 10)
  let financing_cash := total_expenses * (1 / 10)
  let net_cash_flow := operating_cash + investing_cash + financing_cash
  { transactions := transactions,
    income_statement :=
      { total_income := total_income, total_expenses := total_expenses,
        net_income := net_income,
        breakdown :=
          pyDictMerge income_breakdown
            (expense_breakdown.map (fun kv => ("expense_" ++ kv.1, -kv.2))) },
    balance_sheet :=
      { total_assets := total_assets, total_liabilities := total_liabilities,
        total_equity := total_equity },
    cash_flow :=
      { operating_activities := operating_cash, investing_activities := investing_cash,
        financing_activities := financing_cash, net_cash_flow := net_cash_flow } }

/-- Mini regular-expression syntax covering the two patterns of
`FinancialProcessor.parse_pdf_line`: single-character classes, literals,
concatenation, capturing groups and counted repetition (greedy or lazy). -/
inductive RE where
  | cls (p : Char → Bool)
  | lit (c : Char)
  | seq (a b : RE)
  | grp (r : RE)
  | rep (r : RE) (lo : Nat) (hi : Option Nat) (lazy : Bool)

/-- All ways a regex can match a prefix of `s`, as (remaining suffix, captured
groups in group-number order), ordered by the backtracking preference of
Python's `re` engine: alternatives of a greedy repetition are listed longest
first, of a lazy repetition shortest first.  The fuel decreases on every
recursive call; every repetition step consumes at least one character, so a
fuel beyond the pattern size plus twice the subject length is never
exhausted. -/
def reMatches : Nat → RE → List Char → List (List Char × List String)
  | 0, _, _ => []
  | _ + 1, RE.cls _, [] => []
  | _ + 1, RE.cls p, c :: rest => if p c then [(rest, [])] else []
  | _ + 1, RE.lit _, [] => []
  | _ + 1, RE.lit c, d :: rest => if d = c then [(rest, [])] else []
  | fuel + 1, RE.seq a b, s =>
    (reMatches fuel a s).flatMap (fun m =>
      (reMatches fuel b m.1).map (fun m2 => (m2.1, m.2 ++ m2.2)))
  | fuel + 1, RE.grp r, s =>
    (reMatches fuel r s).map (fun m =>
      (m.1, String.mk (s.take (s.length - m.1.length)) :: m.2))
  | fuel + 1, RE.rep r lo hi lz, s =>
    if lo > 0 then
      (reMatches fuel r s).flatMap (fun m =>
        if m.1.length < s.length then
          (reMatches fuel (RE.rep r (lo - 1) (hi.map (· - 1)) lz) m.1).map
            (fun m2 => (m2.1, m.2 ++ m2.2))
        else [])
    else
      match hi with
      | Option.some 0 => [(s, [])]
      | _ =>
        let more := (reMatches fuel r s).flatMap (fun m =>
          if m.1.length < s.length then
            (reMatches fuel (RE.rep r 0 (hi.map (· - 1)) lz) m.1).map
              (fun m2 => (m2.1, m.2 ++ m2.2))
          else [])
        if lz then (s, []) :: more else more ++ [(s, [])]

/-- Fuel used by `reSearch`; ample for the short statement lines at issue. -/
def reFuel : Nat := 400

/-- `re.search(pattern, s)`: the leftmost starting position with a match, and
there the engine's preferred alternative; yields the captured groups. -/
def reSearch (r : RE) (s : List Char) : Option (List String) :=
  (List.range (s.length + 1)).findSome? (fun i =>
    ((reMatches reFuel r (s.drop i)).head?).map Prod.snd)

/-- Regex `\d`. -/
def isDigitChar (c : Char) : Bool := c.isDigit

/-- Regex `\s`. -/
def isSpaceChar (c : Char) : Bool := isPySpace c

/-- Regex `.` (no DOTALL: anything but a newline). -/
def isDotChar (c : Char) : Bool := c ≠ '\n'

/-- Regex `[\d,]`. -/
def isDigitComma (c : Char) : Bool := c.isDigit || c = ','

/-- Right-nested concatenation of a nonempty regex list. -/
def seqAll (r : RE) : List RE → RE
  | [] => r
  | x :: t => RE.seq r (seqAll x t)

/-- Regex `\d{lo,hi}` (greedy). -/
def reDigits (lo hi : Nat) : RE := RE.rep (RE.cls isDigitChar) lo (Option.some hi) false

/-- Regex `\s+`. -/
def reWs : RE := RE.rep (RE.cls isSpaceChar) 1 Option.none false

/-- Regex `(.*?)`'s body `.*?` (lazy). -/
def reLazyAny : RE := RE.rep (RE.cls isDotChar) 0 Option.none true

/-- Regex `[\d,]+\.\d{2}`. -/
def reAmtCore : RE :=
  seqAll (RE.rep (RE.cls isDigitComma) 1 Option.none false) [RE.lit '.', reDigits 2 2]

/-- processor.py line 121: `(\d{1,2}/\d{1,2}/\d{2,4})\s+(.*?)\s+([\d,]+\.\d{2})\s+([\d,]+\.\d{2})`. -/
def pdfPatternA : RE :=
  seqAll (RE.grp (seqAll (reDigits 1 2) [RE.lit '/', reDigits 1 2, RE.lit '/', reDigits 2 4]))
    [reWs, RE.grp reLazyAny, reWs, RE.grp reAmtCore, reWs, RE.grp reAmtCore]

/-- processor.py line 122: `(\d{1,2}-\d{1,2}-\d{2,4})\s+(.*?)\s+(-?[\d,]+\.\d{2})`. -/
def pdfPatternB : RE :=
  seqAll (RE.grp (seqAll (reDigits 1 2) [RE.lit '-', reDigits 1 2, RE.lit '-', reDigits 2 4]))
    [reWs, RE.grp reLazyAny, reWs,
      RE.grp (RE.seq (RE.rep (RE.lit '-') 0 (Option.some 1) false) reAmtCore)]

/-- One iteration of the pattern loop in `parse_pdf_line`: search the line
with the pattern; on a match take groups 1-3 (date, description, amount),
strip commas from the amount and parse it; a `ValueError` falls through to
the next pattern (`Option.none` here). -/
def pdfTryPattern (pat : RE) (line : List Char) : Option Transaction :=
  (reSearch pat line).bind (fun gs =>
    match gs with
    | date :: desc :: amountStr :: _ =>
      (pyFloat? (String.mk (removeSub [','] amountStr.toList))).map (fun amount =>
        { date := date, description := pyStrip desc, amount := amount,
          category := FinancialProcessor.categorize_transaction (pyStrip desc),
          type := if amount > 0 then "income" else "expense" })
    | _ => Option.none)

/-- `FinancialProcessor.parse_pdf_line` (processor.py lines 118-143): try the
two positional patterns in order; no match against either gives `Option.none`.
There is no zero-amount rejection on this path. -/
def FinancialProcessor.parse_pdf_line (line : String) : Option Transaction :=
  match pdfTryPattern pdfPatternA line.toList with
  | Option.some t => Option.some t
  | Option.none => pdfTryPattern pdfPatternB line.toList

/-- An uploaded file as the batch endpoint sees it: its filename and the
result of reading-plus-decoding its bytes (the pandas decoders are the
external collaborator; a raised decode error carries its message). -/
structure UploadFile where
  filename : String
  decoded : Except String (List RawRecord)

/-- One entry of the per-file status list built by `process_files`. -/
inductive FileStatus where
  | success (filename : String) (transactions_count : Nat)
  | error (filename : String) (message : String)
deriving DecidableEq

/-- `app.py process_csv` (lines 104-107) applied to already-decoded rows:
keep the extracted transaction of every row that yields one. -/
def process_csv (rows : List RawRecord) : List Transaction :=
  rows.filterMap extract_transaction

/-- `app.py process_excel` (lines 109-112) applied to already-decoded rows;
after decoding, the same extraction as the CSV path. -/
def process_excel (rows : List RawRecord) : List Transaction :=
  rows.filterMap extract_transaction

/-- The per-file work of `process_files` (app.py lines 175-188): dispatch on
the lowercased filename extension; a decode failure propagates as the caught
exception's message; any other extension is the unsupported-format error. -/
def fileTransactions (f : UploadFile) : Except String (List Transaction) :=
  if strEndsWith (pyLower f.filename) ".csv" then
    f.decoded.map process_csv
  else if strEndsWith (pyLower f.filename) ".xlsx" || strEndsWith (pyLower f.filename) ".xls" then
    f.decoded.map process_excel
  else
    Except.error "Unsupported file format"

/-- One loop iteration of `process_files`: skip files with a falsy filename;
otherwise extend the collected transactions and append this file's status. -/
def process_files_step (acc : List Transaction × List FileStatus) (f : UploadFile) :
    List Transaction × List FileStatus :=
  if f.filename = "" then acc
  else
    match fileTransactions f with
    | Except.ok ts => (acc.1 ++ ts, acc.2 ++ [FileStatus.success f.filename ts.length])
    | Except.error e => (acc.1, acc.2 ++ [FileStatus.error f.filename e])

/-- The loop of `process_files` over all submitted files. -/
def batch_scan (files : List UploadFile) : List Transaction × List FileStatus :=
  files.foldl process_files_step ([], [])

/-- The successful response body of `process_files`. -/
structure BatchResult where
  processed_files : List FileStatus
  transactions : List Transaction
  reports : Reports

/-- `app.py process_files` (lines 167-204): after the loop, an empty
collected-transactions list raises the batch-level HTTP 400 (`Except.error`);
otherwise the response carries the statuses and the generated reports. -/
def process_files (files : List UploadFile) : Except String BatchResult :=
  let r := batch_scan files
  if r.1 = [] then Except.error "No valid transactions found in any file"
  else
    Except.ok
      { processed_files := r.2, transactions := r.1, reports := generate_reports r.1 }

/-!  Specification-side definitions (written from the claims' wording, to be
compared with the source-side definitions above). -/

/-- Claim C2's description of amount detection for a single field: skip a
`None` value; classify the lowercased field name by the three keyword groups
in order, and compute the signed amount accordingly. -/
def claimFieldAmount (f : Option String × PyVal) : Option ℚ :=
  if f.2 = PyVal.none then Option.none
  else if amountTerms.any (fun t => isSubstr t (pyLower (keyStr f.1))) then
    Option.some (parse_amount f.2)
  else if debitTerms.any (fun t => isSubstr t (pyLower (keyStr f.1))) then
    Option.some (-(abs (parse_amount f.2)))
  else if creditTerms.any (fun t => isSubstr t (pyLower (keyStr f.1))) then
    Option.some (abs (parse_amount f.2))
  else
    Option.none

/-- Claim C8's "sum of positive amounts". -/
def incomeSum (ts : List Transaction) : ℚ :=
  (ts.map (fun t => if 0 < t.amount then t.amount else 0)).sum

/-- Claim C8's "sum of absolute values of negative amounts". -/
def expenseSum (ts : List Transaction) : ℚ :=
  (ts.map (fun t => if t.amount < 0 then -t.amount else 0)).sum

/-- Claim C7's flattened taxonomy: `"{main}_{sub}"` labels with their keyword
lists, in declaration order. -/
def taxonomyLabels (chart : List (String × List (String × List String))) :
    List (String × List String) :=
  chart.flatMap (fun mc => mc.2.map (fun sc => (mc.1 ++ "_" ++ sc.1, sc.2)))

/-- The status `process_files` records for one (nonempty-filename) file,
independent of every other file in the batch. -/
def statusOf (f : UploadFile) : FileStatus :=
  match fileTransactions f with
  | Except.ok ts => FileStatus.success f.filename ts.length
  | Except.error e => FileStatus.error f.filename e

/-- The transactions one file contributes to the batch (none on a per-file
error). -/
def extractedOf (f : UploadFile) : List Transaction :=
  match fileTransactions f with
  | Except.ok ts => ts
  | Except.error _ => []

/-!  Helper lemmas. -/

theorem findSome?_cons {α β : Type} (f : α → Option β) (a : α) (l : List α) :
    (a :: l).findSome? f =
      match f a with
      | Option.some b => Option.some b
      | Option.none => l.findSome? f := rfl

theorem findSome?_append {α β : Type} (f : α → Option β) (l₁ l₂ : List α) :
    (l₁ ++ l₂).findSome? f =
      match l₁.findSome? f with
      | Option.some b => Option.some b
      | Option.none => l₂.findSome? f := by
  induction l₁ with
  | nil => rfl
  | cons a t ih =>
    rw [List.cons_append, findSome?_cons, findSome?_cons]
    cases f a with
    | none => exact ih
    | some b => rfl

theorem scanSubCats_eq_findSome? (mainCat dl : String) (scs : List (String × List String)) :
    scanSubCats mainCat dl scs =
      (scs.map (fun sc => (mainCat ++ "_" ++ sc.1, sc.2))).findSome?
        (fun lab => if lab.2.any (fun kw => isSubstr kw dl) then Option.some lab.1
          else Option.none) := by
  induction scs with
  | nil => rfl
  | cons sc t ih =>
    obtain ⟨sub, kws⟩ := sc
    by_cases h : kws.any (fun kw => isSubstr kw dl)
    · simp only [scanSubCats, List.map_cons, findSome?_cons]
      rw [if_pos h, if_pos h]
    · simp only [scanSubCats, List.map_cons, findSome?_cons]
      rw [if_neg h, if_neg h, ih]

theorem scanChart_eq_findSome? (dl : String) (chart : List (String × List (String × List String))) :
    scanChart dl chart =
      (taxonomyLabels chart).findSome?
        (fun lab => if lab.2.any (fun kw => isSubstr kw dl) then Option.some lab.1
          else Option.none) := by
  induction chart with
  | nil => rfl
  | cons mc t ih =>
    obtain ⟨mainCat, scs⟩ := mc
    show (match scanSubCats mainCat dl scs with
      | Option.some c => Option.some c
      | Option.none => scanChart dl t) = _
    rw [taxonomyLabels, List.flatMap_cons, ← taxonomyLabels, findSome?_append,
      ← scanSubCats_eq_findSome?, ← ih]
    cases scanSubCats mainCat dl scs with
    | none => rfl
    | some c => rfl

/-- C7: `categorize` lowercases the description, scans the static taxonomy in
fixed declaration order (main category, then sub-category, then keyword) and
returns the first `"{main}_{sub}"` label any of whose keywords is a substring
of the lowercased description, else `"uncategorized"`; in particular
`categorize("Monthly Salary Payment") = "income_salary"` and
`categorize("Random text xyz") = "uncategorized"`. -/
theorem c7_categorize_first_match :
    (∀ d : String,
      categorize_transaction d =
        ((taxonomyLabels CHART_OF_ACCOUNTS).findSome?
          (fun lab => if lab.2.any (fun kw => isSubstr kw (pyLower d)) then Option.some lab.1
            else Option.none)).getD "uncategorized") ∧
    categorize_transaction "Monthly Salary Payment" = "income_salary" ∧
    categorize_transaction "Random text xyz" = "uncategorized" := by
  refine ⟨fun d => ?_, by decide, by decide⟩
  rw [categorize_transaction, scanChart_eq_findSome?]

/-- C4: `parse_amount` is total (it returns a rational for every input and
never raises): `None` and `""` give 0, numeric input is cast directly, text is
cleaned of currency symbols ₹/$/€, commas and surrounding whitespace and then
parsed, any parse failure gives 0; `parse("1,234.50") = 1234.50` and
`parse("₹500") = 500.0`. -/
theorem c4_parse_amount_total :
    parse_amount PyVal.none = 0 ∧
    parse_amount (PyVal.str "") = 0 ∧
    (∀ q : ℚ, parse_amount (PyVal.num q) = q) ∧
    (∀ s : String, pyFloat? (app_cleaned s) = Option.none → parse_amount (PyVal.str s) = 0) ∧
    parse_amount (PyVal.str "1,234.50") = 1234.5 ∧
    parse_amount (PyVal.str "₹500") = 500 := by
  refine ⟨rfl, rfl, fun q => rfl, fun s h => ?_, ?_, ?_⟩
  · exact parse_amount_fail_eval s (by rwa [pyFloat?, Option.map_eq_none'] at h)
  · refine parse_amount_eval _ false ['1', '2', '3', '4'] ['5', '0'] _ (by decide) ?_
    norm_num [(by decide : digitsValN ['1', '2', '3', '4'] = 1234),
      (by decide : digitsValN ['5', '0'] = 50)]
  · refine parse_amount_eval _ false ['5', '0', '0'] [] _ (by decide) ?_
    norm_num [(by decide : digitsValN ['5', '0', '0'] = 500),
      (by decide : digitsValN ([] : List Char) = 0)]

/-- Witness for C4: the parse-failure hypothesis discharged at the concrete
input `"abc"`. -/
theorem c4_witness :
    pyFloat? (app_cleaned "abc") = Option.none ∧ parse_amount (PyVal.str "abc") = 0 :=
  ⟨rfl, c4_parse_amount_total.2.2.2.1 "abc" rfl⟩

/-- Evaluation helper: `extract_with` on a record with everything already
evaluated. -/
theorem extract_eval (parse : PyVal → ℚ) (categorize : String → String) (placeholder : String)
    (row : RawRecord) (q : ℚ) (d desc cat ty : String)
    (hscan : amount_scan_with parse row = q)
    (hq : q ≠ 0)
    (hdesc : (field_str_scan descPred row).getD placeholder = desc)
    (hdate : (field_str_scan datePred row).getD "" = d)
    (hcat : categorize desc = cat)
    (hty : (if q > 0 then "income" else "expense") = ty) :
    extract_with parse categorize placeholder row =
      Option.some
        { date := d, description := desc, amount := q, category := cat, type := ty } := by
  simp only [extract_with, hscan, if_neg hq, hdesc, hdate, hcat, hty]

/-- Evaluation helper: `extract_with` rejects a record whose scan resolves
to 0. -/
theorem extract_eval_none (parse : PyVal → ℚ) (categorize : String → String)
    (placeholder : String) (row : RawRecord)
    (hscan : amount_scan_with parse row = 0) :
    extract_with parse categorize placeholder row = Option.none := by
  simp [extract_with, hscan]

/-- Counterexample for C5: the two `parse_amount` implementations disagree on
`"₹500"` — app.py strips the `'₹'` and parses 500, processor.py (whose
`replace` targets the mojibake `'â‚¹'`) fails the parse and returns 0, so the
duplicated implementations are not behaviorally equivalent. -/
theorem c5_counterexample :
    parse_amount (PyVal.str "₹500") = 500 ∧
    FinancialProcessor.parse_amount (PyVal.str "₹500") = 0 := by
  constructor
  · refine parse_amount_eval _ false ['5', '0', '0'] [] _ (by decide) ?_
    norm_num [(by decide : digitsValN ['5', '0', '0'] = 500),
      (by decide : digitsValN ([] : List Char) = 0)]
  · exact proc_parse_amount_fail_eval _ (by decide)

/-- C5 (amended): of the duplicated implementations only the categorizers are
behaviorally equivalent; `parse_amount` differs on currency-symbol inputs
(processor.py strips the mojibake `'â‚¹'` instead of `'₹'` and does not strip
`'€'`), and `extract_transaction` differs in its description placeholder
(`"Unknown Transaction"` in app.py, `"Unknown"` in processor.py), shown here
on the record `{"Amount": 5}`. -/
theorem c5_amended_duplication :
    (∀ d : String, categorize_transaction d = FinancialProcessor.categorize_transaction d) ∧
    extract_transaction [(Option.some "Amount", PyVal.num 5)] =
      Option.some
        { date := "", description := "Unknown Transaction", amount := 5,
          category := "uncategorized", type := "income" } ∧
    FinancialProcessor.extract_transaction [(Option.some "Amount", PyVal.num 5)] =
      Option.some
        { date := "", description := "Unknown", amount := 5,
          category := "uncategorized", type := "income" } := by
  refine ⟨fun d => rfl, ?_, ?_⟩
  · rw [extract_transaction]
    exact extract_eval _ _ _ _ 5 "" "Unknown Transaction" "uncategorized" "income" rfl
      (by norm_num) rfl rfl (by decide) (by rw [if_pos (by norm_num : (5 : ℚ) > 0)])
  · rw [FinancialProcessor.extract_transaction]
    exact extract_eval _ _ _ _ 5 "" "Unknown" "uncategorized" "income" rfl
      (by norm_num) rfl rfl (by decide) (by rw [if_pos (by norm_num : (5 : ℚ) > 0)])

/-- The first record of claim C1's end-to-end example, in its field order. -/
def c1_record1 : RawRecord :=
  [(Option.some "Date", PyVal.str "01/01/2024"),
   (Option.some "Description", PyVal.str "Salary"),
   (Option.some "Credit", PyVal.str "50000")]

/-- The second record of claim C1's end-to-end example. -/
def c1_record2 : RawRecord :=
  [(Option.some "Date", PyVal.str "02/01/2024"),
   (Option.some "Description", PyVal.str "Rent payment"),
   (Option.some "Debit", PyVal.str "15000")]

/-- C1 (evaluation of the code at the claim's input): both example records are
rejected by `extract_transaction` — the amount scan reaches the
`"Description"` field first, whose lowercased name contains `"cr"`, so it is
treated as a credit-like amount field; `parse_amount("Salary")` and
`parse_amount("Rent payment")` are 0, and the records are dropped as
zero-amount rows.  The pipeline therefore produces zero transactions and
`total_income = 0`, not the two transactions with `total_income = 50000` the
claim states. -/
theorem c1_pipeline_drops_both_rows :
    extract_transaction c1_record1 = Option.none ∧
    extract_transaction c1_record2 = Option.none ∧
    [c1_record1, c1_record2].filterMap extract_transaction = [] ∧
    (generate_reports
        ([c1_record1, c1_record2].filterMap extract_transaction)).income_statement.total_income
      = 0 := by
  have h1 : extract_transaction c1_record1 = Option.none := by
    rw [extract_transaction]
    refine extract_eval_none _ _ _ _ ?_
    have hs : amount_scan_with parse_amount c1_record1 =
        abs (parse_amount (PyVal.str "Salary")) := rfl
    rw [hs, parse_amount_fail_eval _ (by decide), abs_zero]
  have h2 : extract_transaction c1_record2 = Option.none := by
    rw [extract_transaction]
    refine extract_eval_none _ _ _ _ ?_
    have hs : amount_scan_with parse_amount c1_record2 =
        abs (parse_amount (PyVal.str "Rent payment")) := rfl
    rw [hs, parse_amount_fail_eval _ (by decide), abs_zero]
  have h3 : [c1_record1, c1_record2].filterMap extract_transaction = [] := by
    simp [List.filterMap_cons, h1, h2]
  exact ⟨h1, h2, h3, by rw [h3]; rfl⟩

theorem claimFieldAmount_not_truthy (k : Option String) (v : PyVal) (h : keyTruthy k = false) :
    claimFieldAmount (k, v) = Option.none := by
  cases k with
  | none => cases v <;> rfl
  | some s =>
    have hs : s = "" := by
      by_contra hne
      simp [keyTruthy, hne] at h
    subst hs
    cases v <;> rfl

theorem amount_scan_eq_first_match (row : RawRecord) :
    amount_scan_with parse_amount row = (row.findSome? claimFieldAmount).getD 0 := by
  induction row with
  | nil => rfl
  | cons f rest ih =>
    obtain ⟨k, v⟩ := f
    rw [findSome?_cons]
    by_cases hk : keyTruthy k
    · by_cases hv : v = PyVal.none
      · subst hv
        rw [(rfl : claimFieldAmount (k, PyVal.none) = Option.none)]
        simp only [amount_scan_with]
        rw [if_neg (fun hand => hand.2 rfl)]
        exact ih
      · simp only [amount_scan_with, claimFieldAmount]
        rw [if_pos ⟨hk, hv⟩, if_neg hv]
        by_cases h1 : amountTerms.any (fun t => isSubstr t (pyLower (keyStr k)))
        · rw [if_pos h1, if_pos h1]
          rfl
        · rw [if_neg h1, if_neg h1]
          by_cases h2 : debitTerms.any (fun t => isSubstr t (pyLower (keyStr k)))
          · rw [if_pos h2, if_pos h2]
            rfl
          · rw [if_neg h2, if_neg h2]
            by_cases h3 : creditTerms.any (fun t => isSubstr t (pyLower (keyStr k)))
            · rw [if_pos h3, if_pos h3]
              rfl
            · rw [if_neg h3, if_neg h3]
              exact ih
    · rw [claimFieldAmount_not_truthy k v (Bool.of_not_eq_true hk ▸ rfl)]
      simp only [amount_scan_with]
      rw [if_neg (fun hand => hk hand.1)]
      exact ih

/-- C2: amount detection scans the record's fields in original order and stops
at the first field with a non-null value whose lowercased name contains a
generic-amount, debit-like or credit-like keyword, with the signed amount
computed per class (`claimFieldAmount`); in particular
`extract({"Debit": "100.00", "Narration": "Electricity Bill"})` yields
amount −100.0, type `"expense"`, category `"expenses_utilities"`. -/
theorem c2_amount_detection :
    (∀ row : RawRecord,
      amount_scan_with parse_amount row = (row.findSome? claimFieldAmount).getD 0) ∧
    extract_transaction
        [(Option.some "Debit", PyVal.str "100.00"),
         (Option.some "Narration", PyVal.str "Electricity Bill")] =
      Option.some
        { date := "", description := "Electricity Bill", amount := -100,
          category := "expenses_utilities", type := "expense" } := by
  refine ⟨amount_scan_eq_first_match, ?_⟩
  rw [extract_transaction]
  refine extract_eval _ _ _ _ (-100) "" "Electricity Bill" "expenses_utilities" "expense"
    ?_ (by norm_num) rfl rfl (by decide)
    (by rw [if_neg (by norm_num : ¬((-100 : ℚ) > 0))])
  have hs : amount_scan_with parse_amount
      [(Option.some "Debit", PyVal.str "100.00"),
       (Option.some "Narration", PyVal.str "Electricity Bill")] =
      -(abs (parse_amount (PyVal.str "100.00"))) := rfl
  have hp : parse_amount (PyVal.str "100.00") = 100 := by
    refine parse_amount_eval _ false ['1', '0', '0'] ['0', '0'] _ (by decide) ?_
    norm_num [(by decide : digitsValN ['1', '0', '0'] = 100),
      (by decide : digitsValN ['0', '0'] = 0)]
  rw [hs, hp, abs_of_pos (by norm_num : (0 : ℚ) < 100)]

theorem amount_scan_with_filter (parse : PyVal → ℚ) (row : RawRecord) :
    amount_scan_with parse (row.filter (fun f => keyTruthy f.1)) = amount_scan_with parse row := by
  induction row with
  | nil => rfl
  | cons f rest ih =>
    obtain ⟨k, v⟩ := f
    by_cases hk : keyTruthy k
    · have hf : List.filter (fun f => keyTruthy f.1) ((k, v) :: rest) =
          (k, v) :: List.filter (fun f => keyTruthy f.1) rest :=
        List.filter_cons_of_pos hk
      rw [hf]
      simp only [amount_scan_with, ih]
    · have hf : List.filter (fun f => keyTruthy f.1) ((k, v) :: rest) =
          List.filter (fun f => keyTruthy f.1) rest :=
        List.filter_cons_of_neg (by simpa using hk)
      rw [hf, ih]
      show _ = amount_scan_with parse ((k, v) :: rest)
      simp only [amount_scan_with]
      rw [if_neg (fun hand => hk hand.1)]

theorem field_str_scan_filter (pred : String → Bool) (row : RawRecord) :
    field_str_scan pred (row.filter (fun f => keyTruthy f.1)) = field_str_scan pred row := by
  induction row with
  | nil => rfl
  | cons f rest ih =>
    obtain ⟨k, v⟩ := f
    by_cases hk : keyTruthy k
    · have hf : List.filter (fun f => keyTruthy f.1) ((k, v) :: rest) =
          (k, v) :: List.filter (fun f => keyTruthy f.1) rest :=
        List.filter_cons_of_pos hk
      rw [hf]
      simp only [field_str_scan, ih]
    · have hf : List.filter (fun f => keyTruthy f.1) ((k, v) :: rest) =
          List.filter (fun f => keyTruthy f.1) rest :=
        List.filter_cons_of_neg (by simpa using hk)
      rw [hf, ih]
      show _ = field_str_scan pred ((k, v) :: rest)
      simp only [field_str_scan]
      rw [if_neg (fun hand => hk hand.1)]

theorem extract_with_filter (parse : PyVal → ℚ) (categorize : String → String)
    (placeholder : String) (row : RawRecord) :
    extract_with parse categorize placeholder (row.filter (fun f => keyTruthy f.1)) =
      extract_with parse categorize placeholder row := by
  simp only [extract_with, amount_scan_with_filter, field_str_scan_filter]

/-- C10: fields whose name is `None` or `""` (Python-falsy keys) are ignored
by all three detection steps — removing them changes nothing for either
extractor — and in particular a record whose sole (amount-valued) field has a
falsy name yields no transaction. -/
theorem c10_falsy_keys_ignored :
    (∀ row : RawRecord,
      extract_transaction (row.filter (fun f => keyTruthy f.1)) = extract_transaction row) ∧
    (∀ row : RawRecord,
      FinancialProcessor.extract_transaction (row.filter (fun f => keyTruthy f.1)) =
        FinancialProcessor.extract_transaction row) ∧
    extract_transaction [(Option.some "", PyVal.num 100)] = Option.none ∧
    FinancialProcessor.extract_transaction [(Option.none, PyVal.num 100)] = Option.none := by
  refine ⟨fun row => extract_with_filter _ _ _ row, fun row => extract_with_filter _ _ _ row,
    ?_, ?_⟩
  · rw [extract_transaction]
    exact extract_eval_none _ _ _ _ rfl
  · rw [FinancialProcessor.extract_transaction]
    exact extract_eval_none _ _ _ _ rfl

theorem extract_with_amount_ne_zero (parse : PyVal → ℚ) (categorize : String → String)
    (placeholder : String) (row : RawRecord) (t : Transaction)
    (h : extract_with parse categorize placeholder row = Option.some t) : t.amount ≠ 0 := by
  by_cases h0 : amount_scan_with parse row = 0
  · simp [extract_with, h0] at h
  · simp only [extract_with, if_neg h0] at h
    have ht := Option.some.inj h
    rw [← ht]
    exact h0

/-- C3 (amended): every transaction the two record extractors produce has a
nonzero amount — a record whose resolved amount is exactly 0 is rejected, and
in particular `extract({"Amount": 0})` is absent.  (The PDF line parser does
not share this property; see the counterexample.) -/
theorem c3_extractor_nonzero :
    (∀ (row : RawRecord) (t : Transaction),
      extract_transaction row = Option.some t → t.amount ≠ 0) ∧
    (∀ (row : RawRecord) (t : Transaction),
      FinancialProcessor.extract_transaction row = Option.some t → t.amount ≠ 0) ∧
    extract_transaction [(Option.some "Amount", PyVal.num 0)] = Option.none := by
  refine ⟨fun row t h => extract_with_amount_ne_zero _ _ _ _ _ h,
    fun row t h => extract_with_amount_ne_zero _ _ _ _ _ h, ?_⟩
  rw [extract_transaction]
  exact extract_eval_none _ _ _ _ rfl

/-- Witness for C3: the nonzero-amount implication discharged at the concrete
record `{"Amount": 5}` and its extracted transaction. -/
theorem c3_witness :
    extract_transaction [(Option.some "Amount", PyVal.num 5)] =
      Option.some
        { date := "", description := "Unknown Transaction", amount := 5,
          category := "uncategorized", type := "income" } ∧
    ({ date := "", description := "Unknown Transaction", amount := 5,
        category := "uncategorized", type := "income" } : Transaction).amount ≠ 0 := by
  have h : extract_transaction [(Option.some "Amount", PyVal.num 5)] =
      Option.some
        { date := "", description := "Unknown Transaction", amount := 5,
          category := "uncategorized", type := "income" } := by
    rw [extract_transaction]
    exact extract_eval _ _ _ _ 5 "" "Unknown Transaction" "uncategorized" "income" rfl
      (by norm_num) rfl rfl (by decide) (by rw [if_pos (by norm_num : (5 : ℚ) > 0)])
  exact ⟨h, c3_extractor_nonzero.1 _ _ h⟩

/-- Counterexample for C3: the line
`"01/01/2024 Payment 0.00 500.00"` matches the first positional pattern of
`parse_pdf_line` with amount group `"0.00"`, and the parser returns a
transaction with amount 0 — the zero-amount rejection exists only in the
record extractor, not on the line-parser path. -/
theorem c3_counterexample :
    FinancialProcessor.parse_pdf_line "01/01/2024 Payment 0.00 500.00" =
      Option.some
        { date := "01/01/2024", description := "Payment", amount := 0,
          category := "uncategorized", type := "expense" } := by
  have hsearch : reSearch pdfPatternA ("01/01/2024 Payment 0.00 500.00".toList) =
      Option.some ["01/01/2024", "Payment", "0.00", "500.00"] := by decide
  have hparts : pyFloatParts? (String.mk (removeSub [','] ("0.00".toList))) =
      Option.some (false, ['0'], ['0', '0'], 0) := by decide
  have hval : ratOfParts (false, ['0'], ['0', '0'], 0) = 0 := by
    norm_num [ratOfParts, (by decide : digitsValN ['0'] = 0),
      (by decide : digitsValN ['0', '0'] = 0)]
  have hA : pdfTryPattern pdfPatternA ("01/01/2024 Payment 0.00 500.00".toList) =
      Option.some
        { date := "01/01/2024", description := "Payment", amount := 0,
          category := "uncategorized", type := "expense" } := by
    have hstep : pdfTryPattern pdfPatternA ("01/01/2024 Payment 0.00 500.00".toList) =
        (pyFloat? (String.mk (removeSub [','] ("0.00".toList)))).map
          (fun amount =>
            { date := "01/01/2024", description := pyStrip "Payment", amount := amount,
              category := FinancialProcessor.categorize_transaction (pyStrip "Payment"),
              type := if amount > 0 then "income" else "expense" }) := by
      rw [pdfTryPattern, hsearch]
      rfl
    rw [hstep, pyFloat?, hparts]
    simp only [Option.map_some']
    rw [hval, if_neg (by norm_num : ¬((0 : ℚ) > 0))]
    rw [(by decide : pyStrip "Payment" = "Payment"),
      (by decide : FinancialProcessor.categorize_transaction "Payment" = "uncategorized")]
  rw [FinancialProcessor.parse_pdf_line, hA]

theorem sumValues_cons (k : String) (v : ℚ) (t : List (String × ℚ)) :
    sumValues ((k, v) :: t) = v + sumValues t := by
  simp [sumValues]

theorem sumValues_dictAdd (k : String) (v : ℚ) (d : List (String × ℚ)) :
    sumValues (dictAdd k v d) = sumValues d + v := by
  induction d with
  | nil => simp [dictAdd, sumValues]
  | cons kv t ih =>
    obtain ⟨k', v'⟩ := kv
    by_cases h : k' = k
    · rw [dictAdd, if_pos h, sumValues_cons, sumValues_cons]
      ring
    · rw [dictAdd, if_neg h, sumValues_cons, ih, sumValues_cons]
      ring

theorem incomeSum_cons (t : Transaction) (ts : List Transaction) :
    incomeSum (t :: ts) = (if 0 < t.amount then t.amount else 0) + incomeSum ts := by
  simp [incomeSum]

theorem expenseSum_cons (t : Transaction) (ts : List Transaction) :
    expenseSum (t :: ts) = (if t.amount < 0 then -t.amount else 0) + expenseSum ts := by
  simp [expenseSum]

theorem foldl_breakdown_sums (ts : List Transaction)
    (acc : List (String × ℚ) × List (String × ℚ)) :
    sumValues (ts.foldl breakdownStep acc).1 = sumValues acc.1 + incomeSum ts ∧
    sumValues (ts.foldl breakdownStep acc).2 = sumValues acc.2 + expenseSum ts := by
  induction ts generalizing acc with
  | nil =>
    constructor <;> simp [incomeSum, expenseSum]
  | cons t ts ih =>
    rw [List.foldl_cons]
    obtain ⟨h1, h2⟩ := ih (breakdownStep acc t)
    by_cases hp : t.amount > 0
    · have hstep : breakdownStep acc t = (dictAdd t.category t.amount acc.1, acc.2) := by
        simp [breakdownStep, hp]
      constructor
      · rw [h1, hstep, sumValues_dictAdd, incomeSum_cons, if_pos hp]
        ring
      · rw [h2, hstep, expenseSum_cons, if_neg (by linarith : ¬(t.amount < 0))]
        ring
    · have hstep : breakdownStep acc t = (acc.1, dictAdd t.category (abs t.amount) acc.2) := by
        simp [breakdownStep, hp]
      have hle : t.amount ≤ 0 := le_of_not_lt hp
      constructor
      · rw [h1, hstep, incomeSum_cons, if_neg hp]
        ring
      · rw [h2, hstep, sumValues_dictAdd, expenseSum_cons, abs_of_nonpos hle]
        have habs : (if t.amount < 0 then -t.amount else 0) = -t.amount := by
          rcases lt_or_eq_of_le hle with hlt | heq
          · rw [if_pos hlt]
          · rw [if_neg (by rw [heq]; exact lt_irrefl 0), heq, neg_zero]
        rw [habs]
        ring

theorem breakdown_total_income (ts : List Transaction) :
    sumValues (ts.foldl breakdownStep ([], [])).1 = incomeSum ts := by
  have h := (foldl_breakdown_sums ts ([], [])).1
  simpa [sumValues] using h

theorem breakdown_total_expenses (ts : List Transaction) :
    sumValues (ts.foldl breakdownStep ([], [])).2 = expenseSum ts := by
  have h := (foldl_breakdown_sums ts ([], [])).2
  simpa [sumValues] using h

theorem reports_total_income (ts : List Transaction) :
    (generate_reports ts).income_statement.total_income = incomeSum ts :=
  breakdown_total_income ts

theorem reports_total_expenses (ts : List Transaction) :
    (generate_reports ts).income_statement.total_expenses = expenseSum ts :=
  breakdown_total_expenses ts

theorem reports_net_income (ts : List Transaction) :
    (generate_reports ts).income_statement.net_income = incomeSum ts - expenseSum ts := by
  show sumValues (ts.foldl breakdownStep ([], [])).1 -
      sumValues (ts.foldl breakdownStep ([], [])).2 = _
  rw [breakdown_total_income, breakdown_total_expenses]

theorem reports_total_assets (ts : List Transaction) :
    (generate_reports ts).balance_sheet.total_assets = incomeSum ts * (7 / 10) := by
  show sumValues (ts.foldl breakdownStep ([], [])).1 * (7 / 10) = _
  rw [breakdown_total_income]

theorem reports_total_liabilities (ts : List Transaction) :
    (generate_reports ts).balance_sheet.total_liabilities = expenseSum ts * (3 / 10) := by
  show sumValues (ts.foldl breakdownStep ([], [])).2 * (3 / 10) = _
  rw [breakdown_total_expenses]

theorem reports_total_equity (ts : List Transaction) :
    (generate_reports ts).balance_sheet.total_equity =
      incomeSum ts * (7 / 10) - expenseSum ts * (3 / 10) := by
  show sumValues (ts.foldl breakdownStep ([], [])).1 * (7 / 10) -
      sumValues (ts.foldl breakdownStep ([], [])).2 * (3 / 10) = _
  rw [breakdown_total_income, breakdown_total_expenses]

theorem reports_operating (ts : List Transaction) :
    (generate_reports ts).cash_flow.operating_activities = incomeSum ts - expenseSum ts := by
  show sumValues (ts.foldl breakdownStep ([], [])).1 -
      sumValues (ts.foldl breakdownStep ([], [])).2 = _
  rw [breakdown_total_income, breakdown_total_expenses]

theorem reports_investing (ts : List Transaction) :
    (generate_reports ts).cash_flow.investing_activities = incomeSum ts * (1 / 10) := by
  show sumValues (ts.foldl breakdownStep ([], [])).1 * (1 / 10) = _
  rw [breakdown_total_income]

theorem reports_financing (ts : List Transaction) :
    (generate_reports ts).cash_flow.financing_activities = expenseSum ts * (1 / 10) := by
  show sumValues (ts.foldl breakdownStep ([], [])).2 * (1 / 10) = _
  rw [breakdown_total_expenses]

theorem reports_net_cash_flow (ts : List Transaction) :
    (generate_reports ts).cash_flow.net_cash_flow =
      (incomeSum ts - expenseSum ts) + incomeSum ts * (1 / 10) + expenseSum ts * (1 / 10) := by
  show sumValues (ts.foldl breakdownStep ([], [])).1 -
        sumValues (ts.foldl breakdownStep ([], [])).2 +
      sumValues (ts.foldl breakdownStep ([], [])).1 * (1 / 10) +
      sumValues (ts.foldl breakdownStep ([], [])).2 * (1 / 10) = _
  rw [breakdown_total_income, breakdown_total_expenses]

theorem incomeSum_append (A B : List Transaction) :
    incomeSum (A ++ B) = incomeSum A + incomeSum B := by
  simp [incomeSum, List.map_append, List.sum_append]

theorem expenseSum_append (A B : List Transaction) :
    expenseSum (A ++ B) = expenseSum A + expenseSum B := by
  simp [expenseSum, List.map_append, List.sum_append]

/-- C8: for every transaction list the aggregated reports satisfy the stated
formulas, with `total_income` the sum of positive amounts and
`total_expenses` the sum of absolute values of negative amounts:
assets = income × 0.7, liabilities = expenses × 0.3, equity = assets −
liabilities, operating = net income, investing = income × 0.1, financing =
expenses × 0.1, net cash flow = their sum. -/
theorem c8_report_formulas (ts : List Transaction) :
    (generate_reports ts).income_statement.total_income = incomeSum ts ∧
    (generate_reports ts).income_statement.total_expenses = expenseSum ts ∧
    (generate_reports ts).balance_sheet.total_assets = incomeSum ts * (7 / 10) ∧
    (generate_reports ts).balance_sheet.total_liabilities = expenseSum ts * (3 / 10) ∧
    (generate_reports ts).balance_sheet.total_equity =
      (generate_reports ts).balance_sheet.total_assets -
        (generate_reports ts).balance_sheet.total_liabilities ∧
    (generate_reports ts).cash_flow.operating_activities =
      (generate_reports ts).income_statement.net_income ∧
    (generate_reports ts).cash_flow.investing_activities = incomeSum ts * (1 / 10) ∧
    (generate_reports ts).cash_flow.financing_activities = expenseSum ts * (1 / 10) ∧
    (generate_reports ts).cash_flow.net_cash_flow =
      (generate_reports ts).cash_flow.operating_activities +
        (generate_reports ts).cash_flow.investing_activities +
        (generate_reports ts).cash_flow.financing_activities := by
  refine ⟨reports_total_income ts, reports_total_expenses ts, reports_total_assets ts,
    reports_total_liabilities ts, ?_, ?_, reports_investing ts, reports_financing ts, ?_⟩
  · rw [reports_total_equity, reports_total_assets, reports_total_liabilities]
  · rw [reports_operating, reports_net_income]
  · rw [reports_net_cash_flow, reports_operating, reports_investing, reports_financing]

/-- C9: aggregating the empty transaction list yields all totals 0 and empty
breakdowns, and every total of the aggregation is additive under list
concatenation. -/
theorem c9_aggregate_empty_additive :
    (generate_reports []).income_statement.total_income = 0 ∧
    (generate_reports []).income_statement.total_expenses = 0 ∧
    (generate_reports []).income_statement.net_income = 0 ∧
    (generate_reports []).income_statement.breakdown = [] ∧
    (generate_reports []).balance_sheet.total_assets = 0 ∧
    (generate_reports []).balance_sheet.total_liabilities = 0 ∧
    (generate_reports []).balance_sheet.total_equity = 0 ∧
    (generate_reports []).cash_flow.operating_activities = 0 ∧
    (generate_reports []).cash_flow.investing_activities = 0 ∧
    (generate_reports []).cash_flow.financing_activities = 0 ∧
    (generate_reports []).cash_flow.net_cash_flow = 0 ∧
    (∀ A B : List Transaction,
      (generate_reports (A ++ B)).income_statement.total_income =
        (generate_reports A).income_statement.total_income +
          (generate_reports B).income_statement.total_income) ∧
    (∀ A B : List Transaction,
      (generate_reports (A ++ B)).income_statement.total_expenses =
        (generate_reports A).income_statement.total_expenses +
          (generate_reports B).income_statement.total_expenses) ∧
    (∀ A B : List Transaction,
      (generate_reports (A ++ B)).income_statement.net_income =
        (generate_reports A).income_statement.net_income +
          (generate_reports B).income_statement.net_income) ∧
    (∀ A B : List Transaction,
      (generate_reports (A ++ B)).balance_sheet.total_assets =
        (generate_reports A).balance_sheet.total_assets +
          (generate_reports B).balance_sheet.total_assets) ∧
    (∀ A B : List Transaction,
      (generate_reports (A ++ B)).balance_sheet.total_liabilities =
        (generate_reports A).balance_sheet.total_liabilities +
          (generate_reports B).balance_sheet.total_liabilities) ∧
    (∀ A B : List Transaction,
      (generate_reports (A ++ B)).balance_sheet.total_equity =
        (generate_reports A).balance_sheet.total_equity +
          (generate_reports B).balance_sheet.total_equity) ∧
    (∀ A B : List Transaction,
      (generate_reports (A ++ B)).cash_flow.operating_activities =
        (generate_reports A).cash_flow.operating_activities +
          (generate_reports B).cash_flow.operating_activities) ∧
    (∀ A B : List Transaction,
      (generate_reports (A ++ B)).cash_flow.investing_activities =
        (generate_reports A).cash_flow.investing_activities +
          (generate_reports B).cash_flow.investing_activities) ∧
    (∀ A B : List Transaction,
      (generate_reports (A ++ B)).cash_flow.financing_activities =
        (generate_reports A).cash_flow.financing_activities +
          (generate_reports B).cash_flow.financing_activities) ∧
    (∀ A B : List Transaction,
      (generate_reports (A ++ B)).cash_flow.net_cash_flow =
        (generate_reports A).cash_flow.net_cash_flow +
          (generate_reports B).cash_flow.net_cash_flow) := by
  refine ⟨?_, ?_, ?_, rfl, ?_, ?_, ?_, ?_, ?_, ?_, ?_,
    fun A B => ?_, fun A B => ?_, fun A B => ?_, fun A B => ?_, fun A B => ?_,
    fun A B => ?_, fun A B => ?_, fun A B => ?_, fun A B => ?_, fun A B => ?_⟩
  · rw [reports_total_income]; rfl
  · rw [reports_total_expenses]; rfl
  · rw [reports_net_income]; norm_num [incomeSum, expenseSum]
  · rw [reports_total_assets]; norm_num [incomeSum]
  · rw [reports_total_liabilities]; norm_num [expenseSum]
  · rw [reports_total_equity]; norm_num [incomeSum, expenseSum]
  · rw [reports_operating]; norm_num [incomeSum, expenseSum]
  · rw [reports_investing]; norm_num [incomeSum]
  · rw [reports_financing]; norm_num [expenseSum]
  · rw [reports_net_cash_flow]; norm_num [incomeSum, expenseSum]
  · rw [reports_total_income, reports_total_income, reports_total_income, incomeSum_append]
  · rw [reports_total_expenses, reports_total_expenses, reports_total_expenses,
      expenseSum_append]
  · rw [reports_net_income, reports_net_income, reports_net_income, incomeSum_append,
      expenseSum_append]
    ring
  · rw [reports_total_assets, reports_total_assets, reports_total_assets, incomeSum_append]
    ring
  · rw [reports_total_liabilities, reports_total_liabilities, reports_total_liabilities,
      expenseSum_append]
    ring
  · rw [reports_total_equity, reports_total_equity, reports_total_equity, incomeSum_append,
      expenseSum_append]
    ring
  · rw [reports_operating, reports_operating, reports_operating, incomeSum_append,
      expenseSum_append]
    ring
  · rw [reports_investing, reports_investing, reports_investing, incomeSum_append]
    ring
  · rw [reports_financing, reports_financing, reports_financing, expenseSum_append]
    ring
  · rw [reports_net_cash_flow, reports_net_cash_flow, reports_net_cash_flow, incomeSum_append,
      expenseSum_append]
    ring

theorem foldl_process_files_step (files : List UploadFile)
    (acc : List Transaction × List FileStatus) :
    files.foldl process_files_step acc =
      (acc.1 ++ (files.filter (fun f => f.filename ≠ "")).flatMap extractedOf,
       acc.2 ++ (files.filter (fun f => f.filename ≠ "")).map statusOf) := by
  induction files generalizing acc with
  | nil => simp
  | cons f t ih =>
    rw [List.foldl_cons, ih]
    by_cases hf : f.filename = ""
    · have hstep : process_files_step acc f = acc := by
        simp [process_files_step, hf]
      have hfil : List.filter (fun f => f.filename ≠ "") (f :: t) =
          List.filter (fun f => f.filename ≠ "") t :=
        List.filter_cons_of_neg (by simp [hf])
      rw [hstep, hfil]
    · have hfil : List.filter (fun f => f.filename ≠ "") (f :: t) =
          f :: List.filter (fun f => f.filename ≠ "") t :=
        List.filter_cons_of_pos (by simp [hf])
      rw [hfil]
      cases hft : fileTransactions f with
      | ok ts =>
        have hstep : process_files_step acc f =
            (acc.1 ++ ts, acc.2 ++ [FileStatus.success f.filename ts.length]) := by
          simp [process_files_step, hf, hft]
        rw [hstep]
        simp [extractedOf, statusOf, hft, List.append_assoc]
      | error e =>
        have hstep : process_files_step acc f =
            (acc.1, acc.2 ++ [FileStatus.error f.filename e]) := by
          simp [process_files_step, hf, hft]
        rw [hstep]
        simp [extractedOf, statusOf, hft, List.append_assoc]

/-- C6: in the multi-file batch, each (nonempty-filename) file's status entry
is a function of that file alone — in particular a per-file failure is
recorded as an error entry carrying the filename and the error text and does
not affect the other files — and the batch signals its user-visible error
exactly when the files contribute zero transactions overall. -/
theorem c6_per_file_isolation_and_batch_error :
    (∀ files : List UploadFile,
      (batch_scan files).2 = (files.filter (fun f => f.filename ≠ "")).map statusOf) ∧
    (∀ files : List UploadFile,
      (batch_scan files).1 = (files.filter (fun f => f.filename ≠ "")).flatMap extractedOf) ∧
    (∀ (f : UploadFile) (e : String),
      fileTransactions f = Except.error e → statusOf f = FileStatus.error f.filename e) ∧
    (∀ files : List UploadFile,
      (∃ msg, process_files files = Except.error msg) ↔
        (files.filter (fun f => f.filename ≠ "")).flatMap extractedOf = []) := by
  have hscan : ∀ files : List UploadFile,
      batch_scan files =
        ((files.filter (fun f => f.filename ≠ "")).flatMap extractedOf,
         (files.filter (fun f => f.filename ≠ "")).map statusOf) := by
    intro files
    rw [batch_scan, foldl_process_files_step]
    simp
  refine ⟨fun files => by rw [hscan], fun files => by rw [hscan], ?_, ?_⟩
  · intro f e h
    simp [statusOf, h]
  · intro files
    constructor
    · rintro ⟨msg, hmsg⟩
      by_cases hempty : (batch_scan files).1 = []
      · rw [← hempty, hscan]
      · simp [process_files, hempty] at hmsg
    · intro h
      have hempty : (batch_scan files).1 = [] := by
        rw [hscan]
        exact h
      exact ⟨"No valid transactions found in any file", by simp [process_files, hempty]⟩

/-- Witness for C6: the per-file error implication discharged at a concrete
unsupported-extension file. -/
theorem c6_witness :
    fileTransactions { filename := "a.txt", decoded := Except.ok [] } =
      Except.error "Unsupported file format" ∧
    statusOf { filename := "a.txt", decoded := Except.ok [] } =
      FileStatus.error "a.txt" "Unsupported file format" :=
  ⟨rfl, c6_per_file_isolation_and_batch_error.2.2.1 _ _ rfl⟩
